import Mathlib

/-!
Verification of the memory bus of a Game Boy-style emulator (`src/bus.rs`).

The bus owns a flat 65536-byte array and dispatches every CPU-facing read and
write on the 16-bit address space: cartridge ranges are forwarded to the ROM,
video RAM and the sprite attribute table to the video adapter, and a handful of
I/O registers get special masking, mirroring or trigger behaviour.

The shallow embedding below models the byte array as a function `Nat → Nat`
(addresses `0x0000`–`0xFFFF`, byte values), the external adapters (cartridge,
PPU, joypad, timer) as abstract read functions carried in the state, and each
outgoing adapter call as an explicit `Effect` in a trace returned by `write`.
-/

namespace RustBoy

/-- Address of the interrupt-enable register (bus.rs `INTERRUPT_ENABLE_ADDRESS`). -/
def INTERRUPT_ENABLE_ADDRESS : Nat := 0xFFFF

/-- Address of the interrupt-flag register (bus.rs `INTERRUPT_FLAG_ADDRESS`). -/
def INTERRUPT_FLAG_ADDRESS : Nat := 0xFF0F

/-- Joypad register address (spec §6: JoypadRegister 0xFF00). -/
def JOYPAD_ADDRESS : Nat := 0xFF00

/-- Timer divider register address (spec §6: TimerDividerRegister 0xFF04). -/
def TIMER_DIVIDER_REGISTER_ADDRESS : Nat := 0xFF04

/-- LCD control register address (spec §6: LCDControlRegister 0xFF40). -/
def LCD_CONTROL_ADDRESS : Nat := 0xFF40

/-- LCD status register address (spec §6: STATRegister 0xFF41). -/
def LCD_STATUS_ADDRESS : Nat := 0xFF41

/-- LY (scanline counter) register address (spec §6: LYRegister 0xFF44). -/
def LCD_Y_ADDRESS : Nat := 0xFF44

/-- DMA trigger register address (spec §6: DMARegister 0xFF46). -/
def DMA_ADDRESS : Nat := 0xFF46

/-- Modelled from the spec: `utils::get_bit` (utils.rs is not in the sources);
`get_bit(data, BitIndex::I7)` tests bit 7, so the helper is a plain bit test. -/
def get_bit (data : Nat) (i : Nat) : Bool :=
  Nat.testBit data i

/-- Modelled from the spec: `utils::join_bytes` (utils.rs is not in the sources);
per spec §4.2 `read_16bit` is the little-endian pair with the low byte second,
so `join_bytes high low = high * 0x100 + low`. -/
def join_bytes (byte1 byte2 : Nat) : Nat :=
  byte1 * 0x100 + byte2

/-- Pointwise update of the bus-owned 65536-byte array, modelled as a function. -/
def upd (f : Nat → Nat) (a v : Nat) : Nat → Nat :=
  fun b => if b = a then v else f b

/-- An outgoing call from the bus into one of its external adapters. -/
inductive Effect where
  | romWrite (address data : Nat)
  | timerReset
  | vramWrite (address data : Nat)
  | oamWrite (address data : Nat)
deriving DecidableEq, Repr

/-- The bus state (struct `Bus` in bus.rs): the owned `data` array plus the
read-side behaviour of the external adapters, modelled as abstract functions
(`romRead` = `ROM::read`, `vramRead` = `PPU::read_vram`, `oamRead` =
`PPU::read_oam`, `joypadRead` = `Joypad::read` applied to the stored selection
byte, `dividerRead` = `Timer::read_divider`). -/
structure Bus where
  data : Nat → Nat
  romRead : Nat → Nat
  vramRead : Nat → Nat
  oamRead : Nat → Nat
  joypadRead : Nat → Nat
  dividerRead : Nat

/-- Seeded post-boot register values written by `Bus::new` (bus.rs lines 58–80);
every address not listed starts at 0x00 (seeds whose value is 0x00 coincide
with the default). -/
def initData : Nat → Nat := fun a =>
  if a = 0xFF00 then 0xCF
  else if a = 0xFF02 then 0x7E
  else if a = 0xFF04 then 0x18
  else if a = 0xFF07 then 0xF8
  else if a = 0xFF0F then 0xE1
  else if a = 0xFF40 then 0x91
  else if a = 0xFF41 then 0x81
  else if a = 0xFF44 then 0x91
  else if a = 0xFF46 then 0xFF
  else if a = 0xFF47 then 0xFC
  else 0x00

/-- `Bus::new`: constructs the bus with the seeded array; the adapters are
external collaborators passed in by the caller. -/
def Bus.new (rom vram oam joy : Nat → Nat) (div : Nat) : Bus :=
  { data := initData, romRead := rom, vramRead := vram, oamRead := oam,
    joypadRead := joy, dividerRead := div }

/-- `Bus::read` (bus.rs lines 91–106): cartridge ranges forward to the ROM,
the two interrupt registers read with bits 5–7 forced to 1, VRAM and OAM
forward to the PPU, the joypad register goes through the joypad adapter with
the stored byte, the divider register reads the timer; everything else is a
plain array lookup. -/
def Bus.read (s : Bus) (address : Nat) : Nat :=
  if address ≤ 0x3FFF ∨ (0x4000 ≤ address ∧ address ≤ 0x7FFF)
      ∨ (0xA000 ≤ address ∧ address ≤ 0xBFFF) then
    s.romRead address
  else if address = INTERRUPT_ENABLE_ADDRESS ∨ address = INTERRUPT_FLAG_ADDRESS then
    0b11100000 ||| s.data address
  else if 0x8000 ≤ address ∧ address ≤ 0x9FFF then
    s.vramRead address
  else if 0xFE00 ≤ address ∧ address ≤ 0xFE9F then
    s.oamRead address
  else if address = JOYPAD_ADDRESS then
    s.joypadRead (s.data address)
  else if address = TIMER_DIVIDER_REGISTER_ADDRESS then
    s.dividerRead
  else
    s.data address

/-- `Bus::read_16bit` (bus.rs lines 108–110): little-endian pair, the address
of the high byte wrapping past 0xFFFF. -/
def Bus.read_16bit (s : Bus) (address : Nat) : Nat :=
  join_bytes (s.read ((address + 1) % 0x10000)) (s.read address)

/-- `Bus::write` (bus.rs lines 112–166), returning the new state and the trace
of adapter calls.  Branches, in source order: cartridge ranges forward to the
ROM; work RAM 0xC000–0xDFFF stores and (for addresses ≤ 0xDDFF) mirrors into
echo RAM at +0x2000; echo RAM 0xE000–0xFDFF stores and mirrors back at
−0x2000; the divider register resets the timer; the LCD control register
stores first and then tests bit 7 of the (already overwritten) stored byte
against bit 7 of `data`, resetting LY and masking STAT with 0b11111100 when
the test fires; LY writes are ignored; STAT keeps its low 3 bits; the joypad
register keeps its low 4 bits; VRAM/OAM forward to the PPU; the DMA register
stores and then issues 160 `write_oam` calls sourced from the plain array;
everything else is a plain store. -/
def Bus.write (s : Bus) (address data : Nat) : Bus × List Effect :=
  if address ≤ 0x3FFF ∨ (0x4000 ≤ address ∧ address ≤ 0x7FFF)
      ∨ (0xA000 ≤ address ∧ address ≤ 0xBFFF) then
    (s, [Effect.romWrite address data])
  else if 0xC000 ≤ address ∧ address ≤ 0xDFFF then
    let d1 := upd s.data address data
    let d2 := if address ≤ 0xDDFF then upd d1 (0xE000 + (address - 0xC000)) data else d1
    ({ s with data := d2 }, [])
  else if 0xE000 ≤ address ∧ address ≤ 0xFDFF then
    let d1 := upd s.data address data
    let d2 := upd d1 (0xC000 + (address - 0xE000)) data
    ({ s with data := d2 }, [])
  else if address = TIMER_DIVIDER_REGISTER_ADDRESS then
    (s, [Effect.timerReset])
  else if address = LCD_CONTROL_ADDRESS then
    let d1 := upd s.data address data
    if (get_bit data 7 && !get_bit (d1 LCD_CONTROL_ADDRESS) 7) || !get_bit data 7 then
      let d2 := upd d1 LCD_Y_ADDRESS 0x00
      let byte := d2 LCD_STATUS_ADDRESS
      let d3 := upd d2 LCD_STATUS_ADDRESS (byte &&& 0b11111100)
      ({ s with data := d3 }, [])
    else
      ({ s with data := d1 }, [])
  else if address = LCD_Y_ADDRESS then
    (s, [])
  else if address = LCD_STATUS_ADDRESS then
    let byte := s.data address
    ({ s with data := upd s.data address ((data &&& 0b11111000) ||| (byte &&& 0b00000111)) }, [])
  else if address = JOYPAD_ADDRESS then
    let byte := s.data address
    ({ s with data := upd s.data address ((data &&& 0b11110000) ||| (byte &&& 0b00001111)) }, [])
  else if 0x8000 ≤ address ∧ address ≤ 0x9FFF then
    (s, [Effect.vramWrite address data])
  else if 0xFE00 ≤ address ∧ address ≤ 0xFE9F then
    (s, [Effect.oamWrite address data])
  else if address = DMA_ADDRESS then
    let d1 := upd s.data address data
    let source := data * 0x100
    ({ s with data := d1 },
      (List.range 160).map (fun count => Effect.oamWrite (0xFE00 + count) (d1 (source + count))))
  else
    ({ s with data := upd s.data address data }, [])

/-- `Bus::force_write` (bus.rs lines 168–170): unconditional raw store into
the owned array, no adapter call, no mirroring, no masking. -/
def Bus.force_write (s : Bus) (address data : Nat) : Bus :=
  { s with data := upd s.data address data }

/-- `Bus::write_16bit` (bus.rs lines 172–176): write the low byte at
`address` and the high byte at `address + 1` (wrapping), each through the full
`write` path; the traces are concatenated in call order. -/
def Bus.write_16bit (s : Bus) (address data : Nat) : Bus × List Effect :=
  let r1 := s.write address (data % 0x100)
  let r2 := r1.1.write ((address + 1) % 0x10000) ((data / 0x100) % 0x100)
  (r2.1, r1.2 ++ r2.2)

/-- Modelled from the spec: the `Interrupt` kinds of cpu.rs (not in the
sources); spec §4.4 gives the bit indices VBlank=0, LCDStat=1, Timer=2,
Serial=3, Joypad=4. -/
inductive Interrupt where
  | VBlank
  | LCDStat
  | Timer
  | Serial
  | Joypad
deriving DecidableEq, Repr

/-- Bit index carried by each interrupt kind (spec §4.4). -/
def Interrupt.bitIndex : Interrupt → Nat
  | .VBlank => 0
  | .LCDStat => 1
  | .Timer => 2
  | .Serial => 3
  | .Joypad => 4

/-- Modelled from the spec: `Interrupt::set` of cpu.rs (not in the sources);
spec §4.4 says set/clear the bit for the kind in an 8-bit register byte, so
setting ORs in the bit and clearing ANDs with the 8-bit complement of it. -/
def Interrupt.set (i : Interrupt) (byte : Nat) (val : Bool) : Nat :=
  if val then byte ||| (1 <<< i.bitIndex) else byte &&& (0xFF ^^^ (1 <<< i.bitIndex))

/-- `Bus::set_interrupt_flag` (bus.rs lines 178–181): read the interrupt-flag
register through the full read path (which forces bits 5–7), set or clear the
kind's bit, and write it back through the full write path. -/
def Bus.set_interrupt_flag (s : Bus) (i : Interrupt) (val : Bool) : Bus × List Effect :=
  s.write INTERRUPT_FLAG_ADDRESS (i.set (s.read INTERRUPT_FLAG_ADDRESS) val)

/-- A sequence of CPU-facing writes, applied left to right. -/
def writeSeq (s : Bus) : List (Nat × Nat) → Bus
  | [] => s
  | (a, d) :: rest => writeSeq (s.write a d).1 rest

/-- The echo-mirror invariant: each byte of 0xC000–0xDDFF agrees with its echo
counterpart 0x2000 higher. -/
def Mirror (s : Bus) : Prop :=
  ∀ a, 0xC000 ≤ a → a ≤ 0xDDFF → s.data a = s.data (a + 0x2000)

/-- A bus with a given array and inert adapters, used for concrete runs. -/
def mkBus (d : Nat → Nat) : Bus :=
  { data := d, romRead := fun _ => 0, vramRead := fun _ => 0, oamRead := fun _ => 0,
    joypadRead := fun _ => 0, dividerRead := 0 }

theorem upd_self (f : Nat → Nat) (a v : Nat) : upd f a v a = v := by
  simp [upd]

theorem upd_ne (f : Nat → Nat) (a v b : Nat) (h : b ≠ a) : upd f a v b = f b := by
  simp [upd, h]

/-- **C8**: a CPU-facing write to the LY register (0xFF44) is ignored
entirely: the state (including the whole owned array) is unchanged and no
adapter call is made, so a subsequent read of 0xFF44 returns its pre-write
value. -/
theorem C8_ly_write_ignored (s : Bus) (x : Nat) :
    s.write LCD_Y_ADDRESS x = (s, []) ∧
    (s.write LCD_Y_ADDRESS x).1.read LCD_Y_ADDRESS = s.read LCD_Y_ADDRESS := by
  have h : s.write LCD_Y_ADDRESS x = (s, []) := by
    simp [Bus.write, LCD_Y_ADDRESS, TIMER_DIVIDER_REGISTER_ADDRESS, LCD_CONTROL_ADDRESS]
  exact ⟨h, by rw [h]⟩

/-- **C6**: reading either interrupt register (0xFFFF or 0xFF0F) returns the
stored byte ORed with 0b11100000, so bits 5, 6 and 7 of the result are 1 in
every state, irrespective of what was last stored. -/
theorem C6_interrupt_read_mask (s : Bus) :
    s.read INTERRUPT_ENABLE_ADDRESS = 0b11100000 ||| s.data INTERRUPT_ENABLE_ADDRESS ∧
    s.read INTERRUPT_FLAG_ADDRESS = 0b11100000 ||| s.data INTERRUPT_FLAG_ADDRESS ∧
    (s.read INTERRUPT_ENABLE_ADDRESS).testBit 5 = true ∧
    (s.read INTERRUPT_ENABLE_ADDRESS).testBit 6 = true ∧
    (s.read INTERRUPT_ENABLE_ADDRESS).testBit 7 = true ∧
    (s.read INTERRUPT_FLAG_ADDRESS).testBit 5 = true ∧
    (s.read INTERRUPT_FLAG_ADDRESS).testBit 6 = true ∧
    (s.read INTERRUPT_FLAG_ADDRESS).testBit 7 = true := by
  have he : s.read INTERRUPT_ENABLE_ADDRESS = 0b11100000 ||| s.data INTERRUPT_ENABLE_ADDRESS := by
    simp [Bus.read, INTERRUPT_ENABLE_ADDRESS, INTERRUPT_FLAG_ADDRESS]
  have hf : s.read INTERRUPT_FLAG_ADDRESS = 0b11100000 ||| s.data INTERRUPT_FLAG_ADDRESS := by
    simp [Bus.read, INTERRUPT_ENABLE_ADDRESS, INTERRUPT_FLAG_ADDRESS]
  refine ⟨he, hf, ?_, ?_, ?_, ?_, ?_, ?_⟩ <;>
    simp [he, hf, Nat.testBit_or] <;> exact Or.inl (by decide)

theorem lor_land_distrib (a b c : Nat) : (a ||| b) &&& c = (a &&& c) ||| (b &&& c) := by
  apply Nat.eq_of_testBit_eq
  intro i
  simp [Nat.testBit_or, Nat.testBit_and, Bool.and_or_distrib_right]

theorem lor_shiftRight (a b n : Nat) : (a ||| b) >>> n = (a >>> n) ||| (b >>> n) := by
  apply Nat.eq_of_testBit_eq
  intro i
  simp [Nat.testBit_or, Nat.testBit_shiftRight, Nat.add_comm]

theorem shiftRight3_of_lt (a : Nat) (h : a < 8) : a >>> 3 = 0 := by
  rw [Nat.shiftRight_eq_div_pow]
  omega

/-- **C7**: a write to the STAT register (0xFF41) stores the written byte's
high 5 bits over the prior low 3 bits; in particular after writing 0xFF the
low 3 bits read back unchanged and the high 5 bits read back as 0b11111. -/
theorem C7_stat_partial_write (s : Bus) (d : Nat) :
    (s.write LCD_STATUS_ADDRESS d).1.data LCD_STATUS_ADDRESS
      = (d &&& 0b11111000) ||| (s.data LCD_STATUS_ADDRESS &&& 0b00000111) ∧
    ((s.write LCD_STATUS_ADDRESS 0xFF).1.read LCD_STATUS_ADDRESS) &&& 0b00000111
      = s.data LCD_STATUS_ADDRESS &&& 0b00000111 ∧
    ((s.write LCD_STATUS_ADDRESS 0xFF).1.read LCD_STATUS_ADDRESS) >>> 3 = 0b11111 := by
  have hw : ∀ x : Nat, (s.write LCD_STATUS_ADDRESS x).1.data LCD_STATUS_ADDRESS
      = (x &&& 0b11111000) ||| (s.data LCD_STATUS_ADDRESS &&& 0b00000111) := by
    intro x
    simp [Bus.write, LCD_STATUS_ADDRESS, LCD_CONTROL_ADDRESS, LCD_Y_ADDRESS,
      TIMER_DIVIDER_REGISTER_ADDRESS, upd]
  have hr : ∀ t : Bus, t.read LCD_STATUS_ADDRESS = t.data LCD_STATUS_ADDRESS := by
    intro t
    simp [Bus.read, LCD_STATUS_ADDRESS, INTERRUPT_ENABLE_ADDRESS, INTERRUPT_FLAG_ADDRESS,
      JOYPAD_ADDRESS, TIMER_DIVIDER_REGISTER_ADDRESS]
  have hlow : s.data LCD_STATUS_ADDRESS &&& 0b00000111 < 8 :=
    Nat.lt_of_le_of_lt Nat.and_le_right (by decide)
  refine ⟨hw d, ?_, ?_⟩
  · rw [hr, hw]
    rw [show (0xFF : Nat) &&& 0b11111000 = 0b11111000 from by decide]
    rw [lor_land_distrib]
    rw [show (0b11111000 : Nat) &&& 0b00000111 = 0 from by decide]
    rw [Nat.land_assoc]
    simp
  · rw [hr, hw]
    rw [show (0xFF : Nat) &&& 0b11111000 = 0b11111000 from by decide]
    rw [lor_shiftRight, shiftRight3_of_lt _ hlow]
    simp

/-- Concrete pre-state refuting C2: stored LCD control byte 0x00 (display bit
clear), LY byte 5, STAT byte 7, everything else zero, inert adapters. -/
def cexC2 : Bus :=
  mkBus (upd (upd (fun _ => 0) LCD_Y_ADDRESS 5) LCD_STATUS_ADDRESS 7)

/-- **C2 counterexample**: writing 0x80 (bit 7 set) while the old stored LCD
control byte has bit 7 clear is the off→on edge, for which the claim demands
LY be reset to 0 — but the source stores the new byte before testing the
"old" bit, so the edge test reads the new byte and the reset is skipped: LY
stays 5.  Moreover on the reset path (writing 0x00) the source masks STAT
with 0b11111100, clearing only the low 2 bits, not the low 3 the claim
states: a prior STAT byte 7 leaves `STAT &&& 0b00000111 = 4`, not 0. -/
theorem C2_counterexample :
    get_bit 0x80 7 = true ∧
    get_bit (cexC2.data LCD_CONTROL_ADDRESS) 7 = false ∧
    (cexC2.write LCD_CONTROL_ADDRESS 0x80).1.data LCD_Y_ADDRESS = 5 ∧
    get_bit 0x00 7 = false ∧
    ((cexC2.write LCD_CONTROL_ADDRESS 0x00).1.data LCD_STATUS_ADDRESS) &&& 0b00000111 = 4 := by
  refine ⟨by decide, by decide, ?_, by decide, ?_⟩ <;> decide

/-- **C2 (amended)**: a write to the LCD control register (0xFF40) always
stores the written byte; because the source overwrites the stored byte before
comparing its bit 7 with the written bit 7, the off→on edge branch can never
fire, so the LY/STAT reset happens exactly when bit 7 of the written byte is
0, and the reset masks STAT with 0b11111100 (clearing the two mode bits and
preserving bit 2).  No adapter call is made. -/
theorem C2_lcd_control_write (s : Bus) (d : Nat) :
    (s.write LCD_CONTROL_ADDRESS d).1.data LCD_CONTROL_ADDRESS = d ∧
    (s.write LCD_CONTROL_ADDRESS d).1.data LCD_Y_ADDRESS
      = (if get_bit d 7 then s.data LCD_Y_ADDRESS else 0) ∧
    (s.write LCD_CONTROL_ADDRESS d).1.data LCD_STATUS_ADDRESS
      = (if get_bit d 7 then s.data LCD_STATUS_ADDRESS
         else s.data LCD_STATUS_ADDRESS &&& 0b11111100) ∧
    (s.write LCD_CONTROL_ADDRESS d).2 = [] := by
  cases hg : get_bit d 7 <;>
    simp [Bus.write, LCD_CONTROL_ADDRESS, LCD_Y_ADDRESS, LCD_STATUS_ADDRESS,
      TIMER_DIVIDER_REGISTER_ADDRESS, upd, hg]

/-- Concrete pre-state refuting C3: STAT byte 0x04 (coincidence bit set). -/
def cexC3 : Bus :=
  mkBus (upd (fun _ => 0) LCD_STATUS_ADDRESS 0x04)

/-- **C3 counterexample**: the claim says `write(0xFF40, 0x00)` leaves
`read(0xFF41) & 0b00000111 == 0` from every pre-state, but the source masks
STAT with 0b11111100, which preserves bit 2: from a pre-state with STAT 0x04
the masked read returns 4, not 0. -/
theorem C3_counterexample :
    ((cexC3.write LCD_CONTROL_ADDRESS 0x00).1.read LCD_STATUS_ADDRESS) &&& 0b00000111 = 4 := by
  decide

/-- **C3 (amended)**: from every pre-state, `write(0xFF40, 0x00)` makes a
subsequent read of LY (0xFF44) return 0 and a subsequent read of STAT
(0xFF41) return the prior STAT byte masked with 0b11111100 — so the low 2
(mode) bits read as 0 while bit 2 (coincidence) keeps its prior value. -/
theorem C3_lcd_off_reset (s : Bus) :
    (s.write LCD_CONTROL_ADDRESS 0x00).1.read LCD_Y_ADDRESS = 0 ∧
    ((s.write LCD_CONTROL_ADDRESS 0x00).1.read LCD_STATUS_ADDRESS) &&& 0b00000011 = 0 ∧
    (s.write LCD_CONTROL_ADDRESS 0x00).1.read LCD_STATUS_ADDRESS
      = s.data LCD_STATUS_ADDRESS &&& 0b11111100 := by
  have hys : (s.write LCD_CONTROL_ADDRESS 0x00).1.data LCD_Y_ADDRESS = 0 ∧
      (s.write LCD_CONTROL_ADDRESS 0x00).1.data LCD_STATUS_ADDRESS
        = s.data LCD_STATUS_ADDRESS &&& 0b11111100 := by
    simp [Bus.write, LCD_CONTROL_ADDRESS, LCD_Y_ADDRESS, LCD_STATUS_ADDRESS,
      TIMER_DIVIDER_REGISTER_ADDRESS, upd, get_bit]
  have hry : ∀ t : Bus, t.read LCD_Y_ADDRESS = t.data LCD_Y_ADDRESS := by
    intro t
    simp [Bus.read, LCD_Y_ADDRESS, INTERRUPT_ENABLE_ADDRESS, INTERRUPT_FLAG_ADDRESS,
      JOYPAD_ADDRESS, TIMER_DIVIDER_REGISTER_ADDRESS]
  have hrs : ∀ t : Bus, t.read LCD_STATUS_ADDRESS = t.data LCD_STATUS_ADDRESS := by
    intro t
    simp [Bus.read, LCD_STATUS_ADDRESS, INTERRUPT_ENABLE_ADDRESS, INTERRUPT_FLAG_ADDRESS,
      JOYPAD_ADDRESS, TIMER_DIVIDER_REGISTER_ADDRESS]
  refine ⟨by rw [hry]; exact hys.1, ?_, by rw [hrs]; exact hys.2⟩
  rw [hrs, hys.2, Nat.land_assoc]
  simp [show (0b11111100 : Nat) &&& 0b00000011 = 0 from by decide]

/-- Concrete pre-state refuting C4: every cartridge ROM byte reads as 1 while
the bus-owned array is all zero (writes into the cartridge range never touch
the bus-owned array, so this is the ordinary situation). -/
def cexC4 : Bus :=
  { mkBus (fun _ => 0) with romRead := fun _ => 1 }

/-- **C4 counterexample**: address 0x0400 lies in the cartridge range, so
`read(0x0400)` forwards to the ROM (here returning 1), while the DMA loop in
the source copies `self.data[0x0400]` (here 0) — the bytes handed to
`write_oam` are the bus-owned array bytes, not what `read` would return. -/
theorem C4_counterexample :
    cexC4.read 0x0400 = 1 ∧
    (cexC4.write DMA_ADDRESS 0x04).2 ≠
      (List.range 160).map (fun i => Effect.oamWrite (0xFE00 + i) (cexC4.read (0x0400 + i))) := by
  constructor
  · decide
  · decide

/-- **C4 (amended)**: `write(0xFF46, 0x04)` stores 0x04 at 0xFF46 (changing
nothing else in the state) and issues exactly 160 sequential `write_oam`
calls with destinations 0xFE00–0xFE9F in ascending order, the byte for offset
i being the pre-DMA bus-owned array byte at 0x0400 + i (the source reads the
plain array, not the full `read` path, so for cartridge-range sources the
copied bytes differ from what `read` would return). -/
theorem C4_dma_write (s : Bus) :
    (s.write DMA_ADDRESS 0x04).1 = { s with data := upd s.data DMA_ADDRESS 0x04 } ∧
    (s.write DMA_ADDRESS 0x04).2
      = (List.range 160).map (fun i => Effect.oamWrite (0xFE00 + i) (s.data (0x0400 + i))) := by
  have hred : s.write DMA_ADDRESS 0x04
      = ({ s with data := upd s.data DMA_ADDRESS 0x04 },
         (List.range 160).map
           (fun count => Effect.oamWrite (0xFE00 + count) (upd s.data DMA_ADDRESS 0x04 (0x04 * 0x100 + count)))) := by
    simp [Bus.write, DMA_ADDRESS, TIMER_DIVIDER_REGISTER_ADDRESS, LCD_CONTROL_ADDRESS,
      LCD_Y_ADDRESS, LCD_STATUS_ADDRESS, JOYPAD_ADDRESS]
  rw [hred]
  refine ⟨rfl, ?_⟩
  apply List.map_congr_left
  intro i hi
  have hmem : i < 160 := List.mem_range.mp hi
  have hne : 0x04 * 0x100 + i ≠ DMA_ADDRESS := by
    simp only [DMA_ADDRESS]
    omega
  rw [upd_ne _ _ _ _ hne]

/-- **C10**: `force_write(a, d)` stores d at a in the bus-owned array, leaves
every other byte and all adapter hooks untouched, and makes no adapter call
(by construction it returns no effect trace).  It applies no mirroring and no
masking: force-writing 1 at 0xC000 of the freshly constructed bus leaves its
echo counterpart 0xE000 at 0, breaking the echo-mirror invariant, and
force-writing 0x00 at 0xFF0F stores a byte whose bits 5–7 are all clear. -/
theorem C10_force_write (s : Bus) (a d b : Nat) (hb : b ≠ a) :
    (s.force_write a d).data a = d ∧
    (s.force_write a d).data b = s.data b ∧
    (s.force_write a d).romRead = s.romRead ∧
    (s.force_write a d).vramRead = s.vramRead ∧
    (s.force_write a d).oamRead = s.oamRead ∧
    (s.force_write a d).joypadRead = s.joypadRead ∧
    (s.force_write a d).dividerRead = s.dividerRead ∧
    ¬ Mirror ((Bus.new (fun _ => 0) (fun _ => 0) (fun _ => 0) (fun _ => 0) 0).force_write 0xC000 1) ∧
    ((Bus.new (fun _ => 0) (fun _ => 0) (fun _ => 0) (fun _ => 0) 0).force_write
        INTERRUPT_FLAG_ADDRESS 0x00).data INTERRUPT_FLAG_ADDRESS = 0x00 ∧
    (((Bus.new (fun _ => 0) (fun _ => 0) (fun _ => 0) (fun _ => 0) 0).force_write
        INTERRUPT_FLAG_ADDRESS 0x00).data INTERRUPT_FLAG_ADDRESS).testBit 5 = false ∧
    (((Bus.new (fun _ => 0) (fun _ => 0) (fun _ => 0) (fun _ => 0) 0).force_write
        INTERRUPT_FLAG_ADDRESS 0x00).data INTERRUPT_FLAG_ADDRESS).testBit 6 = false ∧
    (((Bus.new (fun _ => 0) (fun _ => 0) (fun _ => 0) (fun _ => 0) 0).force_write
        INTERRUPT_FLAG_ADDRESS 0x00).data INTERRUPT_FLAG_ADDRESS).testBit 7 = false := by
  refine ⟨upd_self _ _ _, upd_ne _ _ _ _ hb, rfl, rfl, rfl, rfl, rfl, ?_, by decide, by decide,
    by decide, by decide⟩
  intro h
  exact absurd (h 0xC000 (by norm_num) (by norm_num)) (by decide)

/-- Witness for C10 at the concrete input a = 0x1234, d = 0x56, b = 0. -/
theorem C10_force_write_witness :
    (0 : Nat) ≠ 0x1234 ∧
    (((mkBus (fun _ => 0)).force_write 0x1234 0x56).data 0x1234 = 0x56 ∧
     ((mkBus (fun _ => 0)).force_write 0x1234 0x56).data 0 = (mkBus (fun _ => 0)).data 0 ∧
     ((mkBus (fun _ => 0)).force_write 0x1234 0x56).romRead = (mkBus (fun _ => 0)).romRead ∧
     ((mkBus (fun _ => 0)).force_write 0x1234 0x56).vramRead = (mkBus (fun _ => 0)).vramRead ∧
     ((mkBus (fun _ => 0)).force_write 0x1234 0x56).oamRead = (mkBus (fun _ => 0)).oamRead ∧
     ((mkBus (fun _ => 0)).force_write 0x1234 0x56).joypadRead = (mkBus (fun _ => 0)).joypadRead ∧
     ((mkBus (fun _ => 0)).force_write 0x1234 0x56).dividerRead = (mkBus (fun _ => 0)).dividerRead ∧
     ¬ Mirror ((Bus.new (fun _ => 0) (fun _ => 0) (fun _ => 0) (fun _ => 0) 0).force_write 0xC000 1) ∧
     ((Bus.new (fun _ => 0) (fun _ => 0) (fun _ => 0) (fun _ => 0) 0).force_write
         INTERRUPT_FLAG_ADDRESS 0x00).data INTERRUPT_FLAG_ADDRESS = 0x00 ∧
     (((Bus.new (fun _ => 0) (fun _ => 0) (fun _ => 0) (fun _ => 0) 0).force_write
         INTERRUPT_FLAG_ADDRESS 0x00).data INTERRUPT_FLAG_ADDRESS).testBit 5 = false ∧
     (((Bus.new (fun _ => 0) (fun _ => 0) (fun _ => 0) (fun _ => 0) 0).force_write
         INTERRUPT_FLAG_ADDRESS 0x00).data INTERRUPT_FLAG_ADDRESS).testBit 6 = false ∧
     (((Bus.new (fun _ => 0) (fun _ => 0) (fun _ => 0) (fun _ => 0) 0).force_write
         INTERRUPT_FLAG_ADDRESS 0x00).data INTERRUPT_FLAG_ADDRESS).testBit 7 = false) :=
  ⟨by decide, C10_force_write (mkBus (fun _ => 0)) 0x1234 0x56 0 (by decide)⟩

theorem testBit_0xE0_of_le (i : Nat) (h : i ≤ 4) : Nat.testBit 0b11100000 i = false := by
  interval_cases i <;> decide

theorem testBit_0xFF_of_le (i : Nat) (h : i ≤ 7) : Nat.testBit 0xFF i = true := by
  interval_cases i <;> decide

theorem bitIndex_le (k : Interrupt) : k.bitIndex ≤ 4 := by
  cases k <;> decide

theorem set_interrupt_flag_data (s : Bus) (k : Interrupt) (v : Bool) :
    (s.set_interrupt_flag k v).1.data INTERRUPT_FLAG_ADDRESS
        = k.set (0b11100000 ||| s.data INTERRUPT_FLAG_ADDRESS) v ∧
    (s.set_interrupt_flag k v).2 = [] := by
  constructor <;>
    simp [Bus.set_interrupt_flag, Bus.write, Bus.read, INTERRUPT_FLAG_ADDRESS,
      INTERRUPT_ENABLE_ADDRESS, TIMER_DIVIDER_REGISTER_ADDRESS, LCD_CONTROL_ADDRESS,
      LCD_Y_ADDRESS, LCD_STATUS_ADDRESS, JOYPAD_ADDRESS, DMA_ADDRESS, upd]

/-- **C9**: `set_interrupt_flag(k, v)` stores at 0xFF0F the byte obtained by
ORing 0b11100000 into the previously stored interrupt-flag byte and setting
bit k to v (it reads through the masking read path and writes through the
plain-store branch, with no adapter call); consequently the stored byte has
bits 5–7 set, bit k equal to v, and every meaning-carrying bit i ≤ 4 other
than k unchanged. -/
theorem C9_set_interrupt_flag (s : Bus) (k : Interrupt) (v : Bool) (i : Nat)
    (hi : i ≤ 4) (hik : i ≠ k.bitIndex) :
    (s.set_interrupt_flag k v).1.data INTERRUPT_FLAG_ADDRESS
      = k.set (0b11100000 ||| s.data INTERRUPT_FLAG_ADDRESS) v ∧
    (s.set_interrupt_flag k v).2 = [] ∧
    ((s.set_interrupt_flag k v).1.data INTERRUPT_FLAG_ADDRESS).testBit 5 = true ∧
    ((s.set_interrupt_flag k v).1.data INTERRUPT_FLAG_ADDRESS).testBit 6 = true ∧
    ((s.set_interrupt_flag k v).1.data INTERRUPT_FLAG_ADDRESS).testBit 7 = true ∧
    ((s.set_interrupt_flag k v).1.data INTERRUPT_FLAG_ADDRESS).testBit i
      = (s.data INTERRUPT_FLAG_ADDRESS).testBit i ∧
    ((s.set_interrupt_flag k v).1.data INTERRUPT_FLAG_ADDRESS).testBit k.bitIndex = v := by
  obtain ⟨hd, he⟩ := set_interrupt_flag_data s k v
  have hkb : k.bitIndex ≤ 4 := bitIndex_le k
  refine ⟨hd, he, ?_, ?_, ?_, ?_, ?_⟩ <;> rw [hd] <;> cases v <;>
      simp only [Interrupt.set, if_true, if_false, Bool.false_eq_true, ite_false, ite_true,
        Nat.one_shiftLeft, Nat.testBit_or, Nat.testBit_and, Nat.testBit_xor]
  · rw [Nat.testBit_two_pow_of_ne (by omega), testBit_0xFF_of_le 5 (by omega)]
    simp [show Nat.testBit 0b11100000 5 = true from by decide]
  · simp [show Nat.testBit 0b11100000 5 = true from by decide]
  · rw [Nat.testBit_two_pow_of_ne (by omega), testBit_0xFF_of_le 6 (by omega)]
    simp [show Nat.testBit 0b11100000 6 = true from by decide]
  · simp [show Nat.testBit 0b11100000 6 = true from by decide]
  · rw [Nat.testBit_two_pow_of_ne (by omega), testBit_0xFF_of_le 7 (by omega)]
    simp [show Nat.testBit 0b11100000 7 = true from by decide]
  · simp [show Nat.testBit 0b11100000 7 = true from by decide]
  · rw [Nat.testBit_two_pow_of_ne (fun h => hik h.symm), testBit_0xFF_of_le i (by omega),
      testBit_0xE0_of_le i hi]
    simp
  · rw [Nat.testBit_two_pow_of_ne (fun h => hik h.symm), testBit_0xE0_of_le i hi]
    simp
  · rw [Nat.testBit_two_pow_self, testBit_0xFF_of_le k.bitIndex (by omega)]
    simp
  · rw [Nat.testBit_two_pow_self]
    simp

/-- Witness for C9 at s = all-zero bus, k = Timer (bit 2), v = true, i = 0. -/
theorem C9_set_interrupt_flag_witness :
    (0 : Nat) ≤ 4 ∧ (0 : Nat) ≠ Interrupt.bitIndex Interrupt.Timer ∧
    (((mkBus (fun _ => 0)).set_interrupt_flag Interrupt.Timer true).1.data INTERRUPT_FLAG_ADDRESS
        = Interrupt.set Interrupt.Timer
            (0b11100000 ||| (mkBus (fun _ => 0)).data INTERRUPT_FLAG_ADDRESS) true ∧
     ((mkBus (fun _ => 0)).set_interrupt_flag Interrupt.Timer true).2 = [] ∧
     (((mkBus (fun _ => 0)).set_interrupt_flag Interrupt.Timer true).1.data
        INTERRUPT_FLAG_ADDRESS).testBit 5 = true ∧
     (((mkBus (fun _ => 0)).set_interrupt_flag Interrupt.Timer true).1.data
        INTERRUPT_FLAG_ADDRESS).testBit 6 = true ∧
     (((mkBus (fun _ => 0)).set_interrupt_flag Interrupt.Timer true).1.data
        INTERRUPT_FLAG_ADDRESS).testBit 7 = true ∧
     (((mkBus (fun _ => 0)).set_interrupt_flag Interrupt.Timer true).1.data
        INTERRUPT_FLAG_ADDRESS).testBit 0
        = ((mkBus (fun _ => 0)).data INTERRUPT_FLAG_ADDRESS).testBit 0 ∧
     (((mkBus (fun _ => 0)).set_interrupt_flag Interrupt.Timer true).1.data
        INTERRUPT_FLAG_ADDRESS).testBit (Interrupt.bitIndex Interrupt.Timer) = true) :=
  ⟨by decide, by decide,
    C9_set_interrupt_flag (mkBus (fun _ => 0)) Interrupt.Timer true 0 (by decide) (by decide)⟩

/-- Addresses whose CPU-facing write is a plain (possibly mirrored) store into
the bus-owned array and whose read is a plain array lookup: work RAM, echo
RAM, the unusable region, high RAM and the non-special I/O bytes — excluding
the sprite attribute table (adapter-owned), the seven special registers, and
0xFFFF (whose read is masked). -/
abbrev plainAddr (a : Nat) : Prop :=
  0xC000 ≤ a ∧ a ≤ 0xFFFE ∧ ¬(0xFE00 ≤ a ∧ a ≤ 0xFE9F) ∧
  a ≠ 0xFF00 ∧ a ≠ 0xFF04 ∧ a ≠ 0xFF0F ∧ a ≠ 0xFF40 ∧ a ≠ 0xFF41 ∧ a ≠ 0xFF44 ∧ a ≠ 0xFF46

theorem write_data_self (s : Bus) (a v : Nat) (h : plainAddr a) :
    (s.write a v).1.data a = v := by
  obtain ⟨h1, h2, h3, h4, h5, h6, h7, h8, h9, h10⟩ := h
  simp only [Bus.write, TIMER_DIVIDER_REGISTER_ADDRESS, LCD_CONTROL_ADDRESS, LCD_Y_ADDRESS,
    LCD_STATUS_ADDRESS, JOYPAD_ADDRESS, DMA_ADDRESS]
  split_ifs <;> simp only [upd] <;> (try split_ifs) <;> first | rfl | omega

theorem write_data_other (s : Bus) (a v b : Nat) (h : plainAddr a)
    (hb : b ≠ a) (hm1 : b ≠ a + 0x2000) (hm2 : b + 0x2000 ≠ a) :
    (s.write a v).1.data b = s.data b := by
  obtain ⟨h1, h2, h3, h4, h5, h6, h7, h8, h9, h10⟩ := h
  simp only [Bus.write, TIMER_DIVIDER_REGISTER_ADDRESS, LCD_CONTROL_ADDRESS, LCD_Y_ADDRESS,
    LCD_STATUS_ADDRESS, JOYPAD_ADDRESS, DMA_ADDRESS]
  split_ifs <;> simp only [upd] <;> (try split_ifs) <;> first | rfl | omega

theorem read_plain (s : Bus) (a : Nat) (h : plainAddr a) : s.read a = s.data a := by
  obtain ⟨h1, h2, h3, h4, h5, h6, h7, h8, h9, h10⟩ := h
  simp only [Bus.read, INTERRUPT_ENABLE_ADDRESS, INTERRUPT_FLAG_ADDRESS, JOYPAD_ADDRESS,
    TIMER_DIVIDER_REGISTER_ADDRESS]
  split_ifs <;> first | rfl | omega

/-- **C5 counterexample**: the address 0xFFFE lies outside the claim's
special-register set {0xFF00, 0xFF04, 0xFF0F, 0xFF40, 0xFF41, 0xFF44, 0xFF46}
and outside the cartridge ranges, so the claim demands the round trip return
the written value — but the high byte lands at 0xFFFF, the interrupt-enable
register, whose read forces bits 5–7 to 1: writing 0x00FF reads back 0xE0FF. -/
theorem C5_counterexample :
    ((mkBus (fun _ => 0)).write_16bit 0xFFFE 0x00FF).1.read_16bit 0xFFFE = 0xE0FF ∧
    (0xE0FF : Nat) ≠ 0x00FF := by
  exact ⟨by decide, by decide⟩

/-- **C5 (amended)**: the 16-bit round trip holds when both `addr` and
`addr + 1` are plain bus-owned addresses — in [0xC000, 0xFFFE], outside the
sprite attribute table, and distinct from the special registers 0xFF00,
0xFF04, 0xFF0F, 0xFF40, 0xFF41, 0xFF44, 0xFF46 (so in particular neither
byte lands on 0xFFFF, on an adapter-owned range, or on a masked register):
for every 16-bit v, `write_16bit(addr, v)` followed by `read_16bit(addr)`
returns v. -/
theorem C5_round_trip (s : Bus) (addr v : Nat) (h1 : plainAddr addr)
    (h2 : plainAddr (addr + 1)) (hv : v < 0x10000) :
    (s.write_16bit addr v).1.read_16bit addr = v := by
  have hlt : addr + 1 < 0x10000 := by
    obtain ⟨-, hle, -⟩ := h2
    omega
  have hmod : (addr + 1) % 0x10000 = addr + 1 := Nat.mod_eq_of_lt hlt
  have hfst : (s.write_16bit addr v).1
      = ((s.write addr (v % 0x100)).1.write (addr + 1) ((v / 0x100) % 0x100)).1 := by
    simp [Bus.write_16bit, hmod]
  rw [hfst, Bus.read_16bit, hmod]
  rw [read_plain _ _ h2, read_plain _ _ h1]
  rw [write_data_self _ _ _ h2]
  rw [write_data_other _ _ _ _ h2 (by omega) (by omega) (by omega)]
  rw [write_data_self _ _ _ h1]
  simp only [join_bytes]
  omega

/-- Witness for C5 at addr = 0xC100 (work RAM), v = 0xABCD. -/
theorem C5_round_trip_witness :
    plainAddr 0xC100 ∧ plainAddr (0xC100 + 1) ∧ (0xABCD : Nat) < 0x10000 ∧
    ((mkBus (fun _ => 0)).write_16bit 0xC100 0xABCD).1.read_16bit 0xC100 = 0xABCD :=
  ⟨by decide, by decide, by decide,
    C5_round_trip (mkBus (fun _ => 0)) 0xC100 0xABCD (by decide) (by decide) (by decide)⟩


theorem write_cart_fst (s : Bus) (x v : Nat)
    (hc : x ≤ 0x3FFF ∨ (0x4000 ≤ x ∧ x ≤ 0x7FFF) ∨ (0xA000 ≤ x ∧ x ≤ 0xBFFF)) :
    (s.write x v).1 = s := by
  simp only [Bus.write]
  rw [if_pos hc]

theorem write_work_le_data (s : Bus) (x v : Nat)
    (hw : 0xC000 ≤ x ∧ x ≤ 0xDFFF) (hd : x ≤ 0xDDFF) :
    (s.write x v).1.data = upd (upd s.data x v) (0xE000 + (x - 0xC000)) v := by
  have hc : ¬(x ≤ 0x3FFF ∨ (0x4000 ≤ x ∧ x ≤ 0x7FFF) ∨ (0xA000 ≤ x ∧ x ≤ 0xBFFF)) := by omega
  simp only [Bus.write]
  rw [if_neg hc, if_pos hw, if_pos hd]

theorem write_work_gt_data (s : Bus) (x v : Nat)
    (hw : 0xC000 ≤ x ∧ x ≤ 0xDFFF) (hd : ¬(x ≤ 0xDDFF)) :
    (s.write x v).1.data = upd s.data x v := by
  have hc : ¬(x ≤ 0x3FFF ∨ (0x4000 ≤ x ∧ x ≤ 0x7FFF) ∨ (0xA000 ≤ x ∧ x ≤ 0xBFFF)) := by omega
  simp only [Bus.write]
  rw [if_neg hc, if_pos hw, if_neg hd]

theorem write_echo_data (s : Bus) (x v : Nat) (he : 0xE000 ≤ x ∧ x ≤ 0xFDFF) :
    (s.write x v).1.data = upd (upd s.data x v) (0xC000 + (x - 0xE000)) v := by
  have hc : ¬(x ≤ 0x3FFF ∨ (0x4000 ≤ x ∧ x ≤ 0x7FFF) ∨ (0xA000 ≤ x ∧ x ≤ 0xBFFF)) := by omega
  have hw : ¬(0xC000 ≤ x ∧ x ≤ 0xDFFF) := by omega
  simp only [Bus.write]
  rw [if_neg hc, if_neg hw, if_pos he]

theorem write_ff04_fst (s : Bus) (v : Nat) :
    (s.write TIMER_DIVIDER_REGISTER_ADDRESS v).1 = s := by
  simp [Bus.write, TIMER_DIVIDER_REGISTER_ADDRESS]

theorem write_ff40_data_other (s : Bus) (v b : Nat)
    (hb : b ≠ 0xFF40) (hb1 : b ≠ 0xFF41) (hb4 : b ≠ 0xFF44) :
    (s.write LCD_CONTROL_ADDRESS v).1.data b = s.data b := by
  cases hg : get_bit v 7 <;>
    simp [Bus.write, LCD_CONTROL_ADDRESS, LCD_Y_ADDRESS, LCD_STATUS_ADDRESS,
      TIMER_DIVIDER_REGISTER_ADDRESS, upd, hg, hb, hb1, hb4]

theorem write_ff41_data (s : Bus) (v : Nat) :
    (s.write LCD_STATUS_ADDRESS v).1.data
      = upd s.data LCD_STATUS_ADDRESS
          ((v &&& 0b11111000) ||| (s.data LCD_STATUS_ADDRESS &&& 0b00000111)) := by
  simp [Bus.write, LCD_STATUS_ADDRESS, LCD_CONTROL_ADDRESS, LCD_Y_ADDRESS,
    TIMER_DIVIDER_REGISTER_ADDRESS]

theorem write_ff00_data (s : Bus) (v : Nat) :
    (s.write JOYPAD_ADDRESS v).1.data
      = upd s.data JOYPAD_ADDRESS
          ((v &&& 0b11110000) ||| (s.data JOYPAD_ADDRESS &&& 0b00001111)) := by
  simp [Bus.write, JOYPAD_ADDRESS, LCD_STATUS_ADDRESS, LCD_CONTROL_ADDRESS, LCD_Y_ADDRESS,
    TIMER_DIVIDER_REGISTER_ADDRESS]

theorem write_ff46_data (s : Bus) (v : Nat) :
    (s.write DMA_ADDRESS v).1.data = upd s.data DMA_ADDRESS v := by
  simp [Bus.write, DMA_ADDRESS, JOYPAD_ADDRESS, LCD_STATUS_ADDRESS, LCD_CONTROL_ADDRESS,
    LCD_Y_ADDRESS, TIMER_DIVIDER_REGISTER_ADDRESS]

theorem write_vram_fst (s : Bus) (x v : Nat) (hv : 0x8000 ≤ x ∧ x ≤ 0x9FFF) :
    (s.write x v).1 = s := by
  have hc : ¬(x ≤ 0x3FFF ∨ (0x4000 ≤ x ∧ x ≤ 0x7FFF) ∨ (0xA000 ≤ x ∧ x ≤ 0xBFFF)) := by omega
  have hw : ¬(0xC000 ≤ x ∧ x ≤ 0xDFFF) := by omega
  have he : ¬(0xE000 ≤ x ∧ x ≤ 0xFDFF) := by omega
  have h04 : ¬(x = TIMER_DIVIDER_REGISTER_ADDRESS) := by
    simp only [TIMER_DIVIDER_REGISTER_ADDRESS]
    omega
  have h40 : ¬(x = LCD_CONTROL_ADDRESS) := by
    simp only [LCD_CONTROL_ADDRESS]
    omega
  have h44 : ¬(x = LCD_Y_ADDRESS) := by
    simp only [LCD_Y_ADDRESS]
    omega
  have h41 : ¬(x = LCD_STATUS_ADDRESS) := by
    simp only [LCD_STATUS_ADDRESS]
    omega
  have h00 : ¬(x = JOYPAD_ADDRESS) := by
    simp only [JOYPAD_ADDRESS]
    omega
  simp only [Bus.write]
  rw [if_neg hc, if_neg hw, if_neg he, if_neg h04, if_neg h40, if_neg h44, if_neg h41,
    if_neg h00, if_pos hv]

theorem write_oam_fst (s : Bus) (x v : Nat) (ho : 0xFE00 ≤ x ∧ x ≤ 0xFE9F) :
    (s.write x v).1 = s := by
  have hc : ¬(x ≤ 0x3FFF ∨ (0x4000 ≤ x ∧ x ≤ 0x7FFF) ∨ (0xA000 ≤ x ∧ x ≤ 0xBFFF)) := by omega
  have hw : ¬(0xC000 ≤ x ∧ x ≤ 0xDFFF) := by omega
  have he : ¬(0xE000 ≤ x ∧ x ≤ 0xFDFF) := by omega
  have h04 : ¬(x = TIMER_DIVIDER_REGISTER_ADDRESS) := by
    simp only [TIMER_DIVIDER_REGISTER_ADDRESS]
    omega
  have h40 : ¬(x = LCD_CONTROL_ADDRESS) := by
    simp only [LCD_CONTROL_ADDRESS]
    omega
  have h44 : ¬(x = LCD_Y_ADDRESS) := by
    simp only [LCD_Y_ADDRESS]
    omega
  have h41 : ¬(x = LCD_STATUS_ADDRESS) := by
    simp only [LCD_STATUS_ADDRESS]
    omega
  have h00 : ¬(x = JOYPAD_ADDRESS) := by
    simp only [JOYPAD_ADDRESS]
    omega
  have hv : ¬(0x8000 ≤ x ∧ x ≤ 0x9FFF) := by omega
  simp only [Bus.write]
  rw [if_neg hc, if_neg hw, if_neg he, if_neg h04, if_neg h40, if_neg h44, if_neg h41,
    if_neg h00, if_neg hv, if_pos ho]

theorem write_else_data (s : Bus) (x v : Nat)
    (hc : ¬(x ≤ 0x3FFF ∨ (0x4000 ≤ x ∧ x ≤ 0x7FFF) ∨ (0xA000 ≤ x ∧ x ≤ 0xBFFF)))
    (hw : ¬(0xC000 ≤ x ∧ x ≤ 0xDFFF)) (he : ¬(0xE000 ≤ x ∧ x ≤ 0xFDFF))
    (h04 : x ≠ 0xFF04) (h40 : x ≠ 0xFF40) (h44 : x ≠ 0xFF44) (h41 : x ≠ 0xFF41)
    (h00 : x ≠ 0xFF00) (hv : ¬(0x8000 ≤ x ∧ x ≤ 0x9FFF))
    (ho : ¬(0xFE00 ≤ x ∧ x ≤ 0xFE9F)) (h46 : x ≠ 0xFF46) :
    (s.write x v).1.data = upd s.data x v := by
  have h04' : ¬(x = TIMER_DIVIDER_REGISTER_ADDRESS) := by
    simp only [TIMER_DIVIDER_REGISTER_ADDRESS]
    omega
  have h40' : ¬(x = LCD_CONTROL_ADDRESS) := by
    simp only [LCD_CONTROL_ADDRESS]
    omega
  have h44' : ¬(x = LCD_Y_ADDRESS) := by
    simp only [LCD_Y_ADDRESS]
    omega
  have h41' : ¬(x = LCD_STATUS_ADDRESS) := by
    simp only [LCD_STATUS_ADDRESS]
    omega
  have h00' : ¬(x = JOYPAD_ADDRESS) := by
    simp only [JOYPAD_ADDRESS]
    omega
  have h46' : ¬(x = DMA_ADDRESS) := by
    simp only [DMA_ADDRESS]
    omega
  simp only [Bus.write]
  rw [if_neg hc, if_neg hw, if_neg he, if_neg h04', if_neg h40', if_neg h44', if_neg h41',
    if_neg h00', if_neg hv, if_neg ho, if_neg h46']

theorem mirror_write (s : Bus) (x v : Nat) (h : Mirror s) : Mirror (s.write x v).1 := by
  intro a ha1 ha2
  by_cases hc : x ≤ 0x3FFF ∨ (0x4000 ≤ x ∧ x ≤ 0x7FFF) ∨ (0xA000 ≤ x ∧ x ≤ 0xBFFF)
  · rw [write_cart_fst s x v hc]
    exact h a ha1 ha2
  by_cases hw : 0xC000 ≤ x ∧ x ≤ 0xDFFF
  · by_cases hd : x ≤ 0xDDFF
    · rw [write_work_le_data s x v hw hd]
      simp only [upd]
      split_ifs <;> first | rfl | omega | exact h a ha1 ha2
    · rw [write_work_gt_data s x v hw hd]
      simp only [upd]
      split_ifs <;> first | rfl | omega | exact h a ha1 ha2
  by_cases he : 0xE000 ≤ x ∧ x ≤ 0xFDFF
  · rw [write_echo_data s x v he]
    simp only [upd]
    split_ifs <;> first | rfl | omega | exact h a ha1 ha2
  by_cases h04 : x = 0xFF04
  · subst h04
    rw [show (0xFF04 : Nat) = TIMER_DIVIDER_REGISTER_ADDRESS from rfl, write_ff04_fst]
    exact h a ha1 ha2
  by_cases h40 : x = 0xFF40
  · subst h40
    rw [show (0xFF40 : Nat) = LCD_CONTROL_ADDRESS from rfl]
    rw [write_ff40_data_other s v a (by omega) (by omega) (by omega),
      write_ff40_data_other s v (a + 0x2000) (by omega) (by omega) (by omega)]
    exact h a ha1 ha2
  by_cases h44 : x = 0xFF44
  · subst h44
    rw [show (0xFF44 : Nat) = LCD_Y_ADDRESS from rfl]
    rw [show (s.write LCD_Y_ADDRESS v).1 = s from by
      simp [Bus.write, LCD_Y_ADDRESS, TIMER_DIVIDER_REGISTER_ADDRESS, LCD_CONTROL_ADDRESS]]
    exact h a ha1 ha2
  by_cases h41 : x = 0xFF41
  · subst h41
    rw [show (0xFF41 : Nat) = LCD_STATUS_ADDRESS from rfl, write_ff41_data,
      upd_ne _ _ _ _ (by simp only [LCD_STATUS_ADDRESS]; omega),
      upd_ne _ _ _ _ (by simp only [LCD_STATUS_ADDRESS]; omega)]
    exact h a ha1 ha2
  by_cases h00 : x = 0xFF00
  · subst h00
    rw [show (0xFF00 : Nat) = JOYPAD_ADDRESS from rfl, write_ff00_data,
      upd_ne _ _ _ _ (by simp only [JOYPAD_ADDRESS]; omega),
      upd_ne _ _ _ _ (by simp only [JOYPAD_ADDRESS]; omega)]
    exact h a ha1 ha2
  by_cases hv8 : 0x8000 ≤ x ∧ x ≤ 0x9FFF
  · rw [write_vram_fst s x v hv8]
    exact h a ha1 ha2
  by_cases ho : 0xFE00 ≤ x ∧ x ≤ 0xFE9F
  · rw [write_oam_fst s x v ho]
    exact h a ha1 ha2
  by_cases h46 : x = 0xFF46
  · subst h46
    rw [show (0xFF46 : Nat) = DMA_ADDRESS from rfl, write_ff46_data,
      upd_ne _ _ _ _ (by simp only [DMA_ADDRESS]; omega),
      upd_ne _ _ _ _ (by simp only [DMA_ADDRESS]; omega)]
    exact h a ha1 ha2
  · rw [write_else_data s x v hc hw he h04 h40 h44 h41 h00 hv8 ho h46,
      upd_ne _ _ _ _ (by omega), upd_ne _ _ _ _ (by omega)]
    exact h a ha1 ha2

theorem initData_eq_zero (b : Nat) (hb1 : 0xC000 ≤ b) (hb2 : b ≤ 0xFDFF) : initData b = 0 := by
  simp only [initData]
  split_ifs <;> omega

theorem mirror_new (rom vram oam joy : Nat → Nat) (div : Nat) :
    Mirror (Bus.new rom vram oam joy div) := by
  intro a ha1 ha2
  have hnew : (Bus.new rom vram oam joy div).data = initData := rfl
  rw [hnew, initData_eq_zero a (by omega) (by omega),
    initData_eq_zero (a + 0x2000) (by omega) (by omega)]

theorem mirror_writeSeq (s : Bus) (l : List (Nat × Nat)) (h : Mirror s) :
    Mirror (writeSeq s l) := by
  induction l generalizing s with
  | nil => exact h
  | cons p rest ih =>
    obtain ⟨pa, pd⟩ := p
    exact ih _ (mirror_write _ _ _ h)

theorem write_mirror_echo (s : Bus) (A v : Nat) (h1 : 0xC000 ≤ A) (h2 : A ≤ 0xDDFF) :
    (s.write A v).1.data (A + 0x2000) = v := by
  rw [write_work_le_data s A v (by omega) h2]
  simp only [upd]
  rw [if_pos (by omega : A + 0x2000 = 0xE000 + (A - 0xC000))]

theorem write_mirror_work (s : Bus) (A v : Nat) (h1 : 0xC000 ≤ A) (h2 : A ≤ 0xDDFF) :
    (s.write (A + 0x2000) v).1.data A = v := by
  rw [write_echo_data s (A + 0x2000) v (by omega)]
  simp only [upd]
  rw [if_pos (by omega : A = 0xC000 + (A + 0x2000 - 0xE000))]

theorem write_workram2_tail (s : Bus) (B w b : Nat) (hB1 : 0xDE00 ≤ B) (hB2 : B ≤ 0xDFFF)
    (hb : b ≠ B) : (s.write B w).1.data b = s.data b := by
  rw [write_work_gt_data s B w (by omega) (by omega)]
  exact upd_ne _ _ _ _ hb

/-- **C1**: starting from the constructed bus, after any sequence of
CPU-facing writes, every work-RAM byte A in [0xC000, 0xDDFF] equals its echo
counterpart at A + 0x2000; writing v at A makes a read of A + 0x2000 return
v, writing v at A + 0x2000 makes a read of A return v, and a write to the
unmirrored work-RAM tail 0xDE00–0xDFFF changes no byte other than its own. -/
theorem C1_echo_mirror (rom vram oam joy : Nat → Nat) (div : Nat)
    (l : List (Nat × Nat)) (A v B w b : Nat)
    (hA1 : 0xC000 ≤ A) (hA2 : A ≤ 0xDDFF)
    (hB1 : 0xDE00 ≤ B) (hB2 : B ≤ 0xDFFF) (hb : b ≠ B) :
    (writeSeq (Bus.new rom vram oam joy div) l).data A
      = (writeSeq (Bus.new rom vram oam joy div) l).data (A + 0x2000) ∧
    ((writeSeq (Bus.new rom vram oam joy div) l).write A v).1.read (A + 0x2000) = v ∧
    ((writeSeq (Bus.new rom vram oam joy div) l).write (A + 0x2000) v).1.read A = v ∧
    ((writeSeq (Bus.new rom vram oam joy div) l).write B w).1.data b
      = (writeSeq (Bus.new rom vram oam joy div) l).data b := by
  have hpA : plainAddr A := by
    simp only [plainAddr]
    omega
  have hpE : plainAddr (A + 0x2000) := by
    simp only [plainAddr]
    omega
  refine ⟨mirror_writeSeq _ l (mirror_new rom vram oam joy div) A hA1 hA2, ?_, ?_, ?_⟩
  · rw [read_plain _ _ hpE, write_mirror_echo _ _ _ hA1 hA2]
  · rw [read_plain _ _ hpA, write_mirror_work _ _ _ hA1 hA2]
  · exact write_workram2_tail _ _ _ _ hB1 hB2 hb

/-- Write sequence used by the C1 witness. -/
def c1List : List (Nat × Nat) := [(0xC123, 0x7A), (0xE050, 0x11)]

/-- Witness for C1 at A = 0xC234, v = 0x42, B = 0xDE10, w = 9, b = 0xDE11
after the concrete write sequence `c1List`. -/
theorem C1_echo_mirror_witness :
    (0xC000 : Nat) ≤ 0xC234 ∧ (0xC234 : Nat) ≤ 0xDDFF ∧
    (0xDE00 : Nat) ≤ 0xDE10 ∧ (0xDE10 : Nat) ≤ 0xDFFF ∧ (0xDE11 : Nat) ≠ 0xDE10 ∧
    ((writeSeq (Bus.new (fun _ => 0) (fun _ => 0) (fun _ => 0) (fun _ => 0) 0) c1List).data 0xC234
      = (writeSeq (Bus.new (fun _ => 0) (fun _ => 0) (fun _ => 0) (fun _ => 0) 0) c1List).data
          (0xC234 + 0x2000) ∧
     ((writeSeq (Bus.new (fun _ => 0) (fun _ => 0) (fun _ => 0) (fun _ => 0) 0) c1List).write
          0xC234 0x42).1.read (0xC234 + 0x2000) = 0x42 ∧
     ((writeSeq (Bus.new (fun _ => 0) (fun _ => 0) (fun _ => 0) (fun _ => 0) 0) c1List).write
          (0xC234 + 0x2000) 0x42).1.read 0xC234 = 0x42 ∧
     ((writeSeq (Bus.new (fun _ => 0) (fun _ => 0) (fun _ => 0) (fun _ => 0) 0) c1List).write
          0xDE10 9).1.data 0xDE11
       = (writeSeq (Bus.new (fun _ => 0) (fun _ => 0) (fun _ => 0) (fun _ => 0) 0) c1List).data
           0xDE11) :=
  ⟨by decide, by decide, by decide, by decide, by decide,
    C1_echo_mirror (fun _ => 0) (fun _ => 0) (fun _ => 0) (fun _ => 0) 0 c1List
      0xC234 0x42 0xDE10 9 0xDE11 (by decide) (by decide) (by decide) (by decide) (by decide)⟩

end RustBoy
